import Mathlib

/-!
Verification development for the telegram food reservation bot
(src/main.py). The Python source is shallowly embedded: each method of
ReviewDatabase, FoodReservationAPI and EnhancedFoodReservationBot that the
claims touch becomes a pure Lean function over explicit state, with HTTP
traffic passed in as explicit response values and side effects returned as
an action trace.
-/

namespace FoodBot

/-- JSON values, used to model the request bodies the API client sends. -/
inductive Json where
  | str (s : String)
  | num (n : Int)
  | bool (b : Bool)
  | null
  | arr (elems : List Json)
  | obj (fields : List (String × Json))

/-- Whether a JSON value is an array. -/
def Json.isArr : Json → Bool
  | Json.arr _ => true
  | _ => false

/-- One row of the sqlite reviews table (init_database, src/main.py lines
101-125): columns user_id, user_first_name, food_id, food_name, rating,
comment. The id and created_at columns are bookkeeping the claims never
read and are left out of the row model. -/
structure ReviewRow where
  user_id : Int
  user_first_name : String
  food_id : String
  food_name : String
  rating : Int
  comment : Option String
deriving DecidableEq, Repr

/-- The reviews table in insertion order (append only). -/
abbrev ReviewDB := List ReviewRow

/-- The CHECK constraint of the reviews table: rating between 1 and 5
(init_database, line 114). -/
def ratingCheck (rating : Int) : Bool := decide (1 ≤ rating ∧ rating ≤ 5)

/-- ReviewDatabase.add_review (lines 127-144): INSERT a row; on an out of
range rating sqlite raises a constraint error which the except block turns
into False with the table unchanged, otherwise the row is appended and True
returned. -/
def add_review (db : ReviewDB) (row : ReviewRow) : Bool × ReviewDB :=
  if ratingCheck row.rating then (true, db ++ [row]) else (false, db)

/-- Aggregate returned by ReviewDatabase.get_food_stats. average_rating is
the sqlite AVG over the matching rows, modelled as an exact rational and
rounded to one decimal as Python round(x, 1) does. -/
structure FoodStats where
  average_rating : ℚ
  total_reviews : Nat
  min_rating : Int
  max_rating : Int
deriving DecidableEq, Repr

/-- Round to one decimal place, modelling Python round(x, 1) on the exact
rational value (half rounds up rather than to even; no claim touches a
half way value). -/
def round1 (q : ℚ) : ℚ := (⌊q * 10 + 1 / 2⌋ : ℚ) / 10

/-- ReviewDatabase.get_food_stats (lines 202-233): SELECT AVG(rating),
COUNT( * ), MIN(rating), MAX(rating) WHERE food_id = ?. With no matching
rows sqlite yields NULL for AVG and the code returns the all zero dict; it
never raises to the caller (the except block also returns zeros). -/
def get_food_stats (db : ReviewDB) (food_id : String) : FoodStats :=
  match db.filter (fun r => r.food_id == food_id) with
  | [] => ⟨0, 0, 0, 0⟩
  | r :: rs =>
      let ratings := r.rating :: rs.map ReviewRow.rating
      { average_rating := round1 ((ratings.sum : ℚ) / (ratings.length : ℚ))
        total_reviews := ratings.length
        min_rating := rs.foldl (fun m x => min m x.rating) r.rating
        max_rating := rs.foldl (fun m x => max m x.rating) r.rating }

/-- State of one FoodReservationAPI object (its __init__, lines 269-279):
whether the aiohttp session object exists yet, and the cookie dict. -/
structure ApiState where
  session : Bool
  cookies : List (String × String)
deriving DecidableEq, Repr

/-- FoodReservationAPI.__init__: no session yet, empty cookie dict. -/
def initApiState : ApiState := { session := false, cookies := [] }

/-- An HTTP response: status code, cookies set by the server, parsed body. -/
structure HttpResp (β : Type) where
  status : Nat
  cookies : List (String × String)
  body : β
deriving DecidableEq, Repr

/-- Outcome of one HTTP request: a network layer fault (an exception from
aiohttp, including timeout) or a response. -/
inductive Net (β : Type) where
  | fault
  | ok (r : HttpResp β)
deriving DecidableEq, Repr

/-- Body of a JSON response read through result.get(..., default): either
the json() call raises (malformed), or an object whose relevant key may be
absent. This body shape is read by login and make_reservation via the
success key. -/
inductive SuccessJson where
  | malformed
  | object (success : Option Bool)
deriving DecidableEq, Repr

/-- Python dict.update on the cookie dict: an existing key keeps its
position and takes the new value, a new key is appended in order. -/
def dictUpdate (old new : List (String × String)) : List (String × String) :=
  new.foldl (fun acc kv =>
    if acc.any (fun kv2 => kv2.1 == kv.1) then
      acc.map (fun kv2 => if kv2.1 == kv.1 then kv else kv2)
    else acc ++ [kv]) old

/-- FoodReservationAPI.login (lines 295-328). create_session runs first, so
the session object exists afterwards even when login fails. The GET of the
login page updates cookies only on status 200 (a non 200 GET is silently
ignored). The credential POST returns True only on status 200 with parsed
JSON whose success field is truthy, updating cookies again; every other
outcome — a network fault at either step, a non 200 status, a malformed
JSON body, success false or absent — returns the same False. -/
def login (st : ApiState) (getStep : Net Unit) (postStep : Net SuccessJson) :
    Bool × ApiState :=
  let st1 : ApiState := { st with session := true }
  match getStep with
  | Net.fault => (false, st1)
  | Net.ok g =>
      let st2 := if g.status = 200 then
          { st1 with cookies := dictUpdate st1.cookies g.cookies } else st1
      match postStep with
      | Net.fault => (false, st2)
      | Net.ok p =>
          if p.status = 200 then
            match p.body with
            | SuccessJson.malformed => (false, st2)
            | SuccessJson.object success =>
                if success.getD false then
                  (true, { st2 with cookies := dictUpdate st2.cookies p.cookies })
                else (false, st2)
          else (false, st2)

/-- One reservation dict from the portal JSON; every field is read through
dict.get with a default, so each is optional. -/
structure Reservation where
  id : Option String
  name : Option String
  date : Option String
  time : Option String
  description : Option String
  price : Option String
deriving DecidableEq, Repr

/-- Body of the reservations JSON response: malformed (json() raises) or an
object whose data key may be absent. -/
inductive DataJson where
  | malformed
  | object (data : Option (List Reservation))
deriving DecidableEq, Repr

/-- FoodReservationAPI.get_reservations (lines 330-347): with no session
object it returns []; a network fault returns [] via the except block; a
non 200 status returns []; malformed JSON returns [] via the except block;
otherwise the data field with default []. -/
def get_reservations (st : ApiState) (resp : Net DataJson) : List Reservation :=
  if st.session = false then []
  else
    match resp with
    | Net.fault => []
    | Net.ok r =>
        if r.status = 200 then
          match r.body with
          | DataJson.malformed => []
          | DataJson.object data => data.getD []
        else []

/-- The JSON body FoodReservationAPI.make_reservation POSTs (lines
355-362): the single object with the one field reservation_id. -/
def make_reservation_body (reservation_id : String) : Json :=
  Json.obj [("reservation_id", Json.str reservation_id)]

/-- FoodReservationAPI.make_reservation (lines 349-371): with no session
object False; on a response, True only for status 200 with parsed JSON
whose success field is truthy; a network fault, malformed JSON or any other
status all return the same False. -/
def make_reservation (st : ApiState) (resp : Net SuccessJson) : Bool :=
  if st.session = false then false
  else
    match resp with
    | Net.fault => false
    | Net.ok r =>
        if r.status = 200 then
          match r.body with
          | SuccessJson.malformed => false
          | SuccessJson.object success => success.getD false
        else false

/-! The bot layer: PERSIAN_TEXT constants, per user sessions, the
conversation handlers. Outbound messaging, the message delete and the API
calls are recorded as an action trace. -/

/-- PERSIAN_TEXT entries read by the embedded handlers (lines 49-92). -/
def text_welcome : String :=
  "🍽️ به ربات رزرو غذا خوش آمدید!\n\nلطفاً یکی از گزینه‌های زیر را انتخاب کنید:"

def text_password_prompt : String := "🔑 لطفاً رمز عبور خود را وارد کنید:"

def text_login_success : String := "✅ ورود موفقیت‌آمیز بود!"

def text_login_failed : String :=
  "❌ ورود ناموفق! لطفاً نام کاربری و رمز عبور را بررسی کنید."

def text_reservation_success : String :=
  "✅ رزرو با موفقیت انجام شد!\n\n💭 آیا می‌خواهید نظر خود را درباره این غذا ثبت کنید؟"

def text_reservation_failed : String := "❌ رزرو ناموفق بود. لطفاً دوباره تلاش کنید."

def text_error : String := "❌ خطایی رخ داد. لطفاً دوباره تلاش کنید."

def text_processing : String := "⏳ در حال پردازش..."

def text_food_details : String := "🍽️ جزئیات غذا:"

def text_comment_prompt : String :=
  "💭 لطفاً نظر خود را درباره این غذا بنویسید:\n(برای رد کردن /skip تایپ کنید)"

def text_review_saved : String := "✅ نظر شما با موفقیت ثبت شد! از شما متشکریم."

def text_unknown : String := "نامشخص"

def text_default_user : String := "کاربر"

/-- The python-telegram-bot conversation states of the handler (line 46)
plus ConversationHandler.END. -/
inductive ConvState where
  | loginUsername
  | loginPassword
  | reservationSelection
  | aiHelp
  | reviewRating
  | reviewComment
  | conversationEnd
deriving DecidableEq, Repr

/-- Observable side effects a handler performs, in order. -/
inductive Action where
  | deleteMessage
  | replyText (text : String)
  | editText (text : String)
  | apiLogin (username password : String)
  | apiReserve (reservation_id : String)
deriving DecidableEq, Repr

/-- One entry of self.user_sessions (password_handler, lines 923-928): the
dict literal with keys logged_in, username, login_time. No password key
exists. login_time models datetime.now() as an abstract tick. -/
structure Session where
  logged_in : Bool
  username : String
  login_time : Nat
deriving DecidableEq, Repr

/-- Python dict assignment self.user_sessions[user_id] = v on an
association list with unique keys: replace in place, else append. -/
def setSession : List (Int × Session) → Int → Session → List (Int × Session)
  | [], k, v => [(k, v)]
  | kv :: rest, k, v =>
      if kv.1 = k then (k, v) :: rest else kv :: setSession rest k v

/-- Dict lookup self.user_sessions.get(user_id). -/
def getSession (m : List (Int × Session)) (k : Int) : Option Session :=
  (m.find? (fun kv => kv.1 == k)).map Prod.snd

/-- State of one EnhancedFoodReservationBot: the identity of the single
FoodReservationAPI object created in __init__ (line 570), its mutable
state, and the user_sessions dict (line 573). -/
structure BotState where
  api_client : Nat
  api_state : ApiState
  user_sessions : List (Int × Session)
deriving DecidableEq, Repr

/-- EnhancedFoodReservationBot.__init__ (lines 568-573): exactly one
FoodReservationAPI instance is created and stored in self.api_client;
user_sessions starts empty. -/
def mkBot (client_id : Nat) : BotState :=
  { api_client := client_id, api_state := initApiState, user_sessions := [] }

/-- The Portal Client object through which a given user is served: every
portal call site in the handlers reads self.api_client (lines 662, 707,
839, 920), the single instance created in __init__; no per user handle
exists, so the result does not depend on the user at all. -/
def BotState.portal_handle_for (bot : BotState) (_user_id : Int) : Nat :=
  bot.api_client

/-- The logged in check the handlers perform (for example line 654):
user_id in self.user_sessions and the logged_in flag of its entry. -/
def is_logged_in (bot : BotState) (user_id : Int) : Bool :=
  match getSession bot.user_sessions user_id with
  | some s => s.logged_in
  | none => false

/-- context.user_data of one chat: the username cached by
username_handler, the reservations list cached by the view branch, the
last confirmed reservation, and the staged review rating. -/
structure UserData where
  username : Option String
  reservations : List Reservation
  last_reservation : Option Reservation
  review_rating : Option Int
deriving DecidableEq, Repr

/-- Fresh user_data: an empty dict, every key absent. -/
def emptyUserData : UserData := ⟨none, [], none, none⟩

/-- Whitespace for the Python str.strip default. -/
def isSpaceChar (c : Char) : Bool :=
  c == ' ' || c == '\t' || c == '\n' || c == '\r'

/-- Python str.strip(): drop whitespace from both ends, written over the
character list so that it evaluates inside the kernel. -/
def pyStrip (s : String) : String :=
  String.mk (((s.data.dropWhile isSpaceChar).reverse.dropWhile isSpaceChar).reverse)

/-- Python str.lower(), written over the character list. -/
def pyLower (s : String) : String := String.mk (s.data.map Char.toLower)

/-- EnhancedFoodReservationBot.username_handler (lines 893-902): cache the
stripped text as username and prompt for the password. -/
def username_handler (ud : UserData) (text : String) :
    UserData × ConvState × List Action :=
  ({ ud with username := some (pyStrip text) }, ConvState.loginPassword,
   [Action.replyText text_password_prompt])

/-- EnhancedFoodReservationBot.password_handler (lines 904-940): strip the
text, read the cached username with default empty, delete the password
message first (best effort, before the login call and regardless of its
outcome), show the processing message, call self.api_client.login, store a
session dict of logged_in, username and login_time only when login
succeeded, and edit in the success or failure text. The password reaches
nothing but the login call. -/
def password_handler (bot : BotState) (ud : UserData) (user_id : Int)
    (text : String) (getStep : Net Unit) (postStep : Net SuccessJson)
    (now : Nat) : BotState × List Action :=
  let password := pyStrip text
  let username := ud.username.getD ""
  let r := login bot.api_state getStep postStep
  let sessions :=
    if r.1 then setSession bot.user_sessions user_id ⟨true, username, now⟩
    else bot.user_sessions
  ({ bot with api_state := r.2, user_sessions := sessions },
   [Action.deleteMessage, Action.replyText text_processing,
    Action.apiLogin username password,
    Action.editText (if r.1 then text_login_success else text_login_failed)])

/-- Decimal rendering of a one decimal rational for the details view. -/
def show1 (q : ℚ) : String :=
  let n : Int := ⌊q * 10⌋
  toString (Int.fdiv n 10) ++ "." ++ toString (Int.emod n 10)

/-- The details text built by the reserve_ branch (lines 770-783). -/
def details_text (r : Reservation) (stats : FoodStats) : String :=
  let base := text_food_details ++ "\n\n"
    ++ "🍽️ نام: " ++ r.name.getD text_unknown ++ "\n"
    ++ "📅 تاریخ: " ++ r.date.getD text_unknown ++ "\n"
    ++ "⏰ زمان: " ++ r.time.getD text_unknown ++ "\n"
  let base := base ++ (match r.description with
    | some d => if d = "" then "" else "📝 توضیحات: " ++ d ++ "\n"
    | none => "")
  let base := base ++ (match r.price with
    | some p => if p = "" then "" else "💰 قیمت: " ++ p ++ " تومان\n"
    | none => "")
  if stats.total_reviews > 0 then
    base ++ "\n⭐ میانگین امتیاز: " ++ show1 stats.average_rating ++ "/5\n"
      ++ "📊 تعداد نظرات: " ++ toString stats.total_reviews ++ "\n"
  else base

/-- button_handler branch for callback data reserve_IDX (lines 761-795):
with the index in range of the cached reservations it edits in the details
view and stays in the selection state; out of range it falls through the
if, sending nothing and changing nothing, and still returns the selection
state — no exception can escape. -/
def reserve_branch (db : ReviewDB) (ud : UserData) (index : Nat) :
    UserData × ConvState × List Action :=
  if h : index < ud.reservations.length then
    let reservation := ud.reservations.get ⟨index, h⟩
    let food_id := reservation.id.getD ""
    (ud, ConvState.reservationSelection,
     [Action.editText (details_text reservation (get_food_stats db food_id))])
  else (ud, ConvState.reservationSelection, [])

/-- button_handler branch for callback data confirm_IDX (lines 829-861):
with the index in range it edits in the processing text, calls
self.api_client.make_reservation with the id of the chosen reservation,
and on success stores last_reservation and moves to the review rating
state; on failure it edits in the one generic failure text and ends. Out
of range it ends silently. The branch never writes user_sessions and never
writes the reservations list. -/
def confirm_branch (st : ApiState) (ud : UserData) (index : Nat)
    (resp : Net SuccessJson) : UserData × ConvState × List Action :=
  if h : index < ud.reservations.length then
    let reservation := ud.reservations.get ⟨index, h⟩
    let reservation_id := reservation.id.getD ""
    if make_reservation st resp then
      ({ ud with last_reservation := some reservation },
       ConvState.reviewRating,
       [Action.editText text_processing, Action.apiReserve reservation_id,
        Action.editText text_reservation_success])
    else
      (ud, ConvState.conversationEnd,
       [Action.editText text_processing, Action.apiReserve reservation_id,
        Action.editText text_reservation_failed])
  else (ud, ConvState.conversationEnd, [])

/-- button_handler branch for callback data rating_K (lines 877-885): the
parsed integer is staged into user_data with no range check of any kind
and the flow moves on to the comment prompt. -/
def rating_branch (ud : UserData) (k : Int) :
    UserData × ConvState × List Action :=
  ({ ud with review_rating := some k }, ConvState.reviewComment,
   [Action.editText text_comment_prompt])

/-- The default applied to update.effective_user.first_name or "کاربر":
Python or treats both None and the empty string as falsy. -/
def firstNameOf (first_name : Option String) : String :=
  match first_name with
  | some n => if n = "" then text_default_user else n
  | none => text_default_user

/-- EnhancedFoodReservationBot.review_comment_handler (lines 942-984):
/skip ends without writing; otherwise the rating is read with default 5
and the reservation with default empty dict (so food_id defaults to the
empty string and food_name to the unknown label), the record is inserted,
and the saved or error text is sent. The user is never re-prompted. -/
def review_comment_handler (db : ReviewDB) (ud : UserData) (user_id : Int)
    (first_name : Option String) (text : String) :
    ReviewDB × ConvState × List Action :=
  let comment := pyStrip text
  let user_first_name := firstNameOf first_name
  if pyLower comment = "/skip" then
    (db, ConvState.conversationEnd, [Action.replyText text_welcome])
  else
    let rating := ud.review_rating.getD 5
    let food_id := match ud.last_reservation with
      | some r => r.id.getD ""
      | none => ""
    let food_name := match ud.last_reservation with
      | some r => r.name.getD text_unknown
      | none => text_unknown
    let r := add_review db
      ⟨user_id, user_first_name, food_id, food_name, rating, some comment⟩
    (r.2, ConvState.conversationEnd,
     [Action.replyText (if r.1 then text_review_saved else text_error)])

/-! Concrete fixtures used by counterexamples and witnesses. -/

/-- A fetch response carrying a successful GET of the login page. -/
def okGet : Net Unit := Net.ok ⟨200, [], ()⟩

/-- A credential POST response that reports success. -/
def okLogin : Net SuccessJson := Net.ok ⟨200, [], SuccessJson.object (some true)⟩

/-- A bot in which users 1 and 2 have both logged in successfully. -/
def botTwoUsers : BotState :=
  (password_handler
    ((password_handler (mkBot 0) { emptyUserData with username := some "alice" }
        1 "pw1" okGet okLogin 10).1)
    { emptyUserData with username := some "bob" } 2 "pw2" okGet okLogin 20).1

/-- An API client state whose session object exists. -/
def st_session : ApiState := { session := true, cookies := [] }

/-- A reservation dict as the portal returns it. -/
def sampleReservation : Reservation :=
  ⟨some "42", some "x", some "d", some "t", none, none⟩

/-- user_data holding a one element reservations list. -/
def udOne : UserData := ⟨none, [sampleReservation], none, none⟩

/-- A review row with rating 4 for item k1. -/
def reviewRow4 : ReviewRow := ⟨7, "a", "k1", "food", 4, none⟩

/-- A review row with rating 2 for item k1. -/
def reviewRow2 : ReviewRow := ⟨8, "b", "k1", "food", 2, none⟩

/-- A review row with the out of range rating 0. -/
def rowRating0 : ReviewRow := ⟨1, "u", "f", "n", 0, none⟩

/-- A review row with the in range rating 3. -/
def rowRating3 : ReviewRow := ⟨1, "u", "f", "n", 3, none⟩

/-! Helper lemmas. -/

/-- Characterization of round1 by bracketing the scaled value. -/
theorem round1_eq (q : ℚ) (n : ℤ) (h1 : (n : ℚ) ≤ q * 10 + 1 / 2)
    (h2 : q * 10 + 1 / 2 < n + 1) : round1 q = (n : ℚ) / 10 := by
  unfold round1
  rw [Int.floor_eq_iff.mpr ⟨h1, h2⟩]

/-- Looking up a key right after assigning it yields the assigned value. -/
theorem getSession_setSession (m : List (Int × Session)) (k : Int) (v : Session) :
    getSession (setSession m k v) k = some v := by
  induction m with
  | nil => simp [setSession, getSession]
  | cons kv rest ih =>
      by_cases h : kv.1 = k
      · simp [setSession, h, getSession]
      · simp [setSession, h, getSession] at ih ⊢
        exact ih

/-! Claim C1. -/

/-- C1 counterexample: the claim says the authenticated Portal Client
handle serving one user is never the same object as the handle serving
another user with an active session. In the code a single
FoodReservationAPI object created in __init__ serves every user: with
users 1 and 2 both logged in, the handle serving user 1 is the very same
object as the handle serving user 2. -/
theorem two_logged_in_users_share_one_portal_client :
    (1 : Int) ≠ 2
    ∧ is_logged_in botTwoUsers 1 = true
    ∧ is_logged_in botTwoUsers 2 = true
    ∧ botTwoUsers.portal_handle_for 1 = botTwoUsers.portal_handle_for 2 := by
  decide

/-- C1 (amended): there is no per session Portal Client at all — the bot
serves every user through the one shared api_client created in __init__,
so the handle used for any two users (logged in or not) is always the same
object. -/
theorem portal_handle_independent_of_user (bot : BotState) (u v : Int) :
    bot.portal_handle_for u = bot.portal_handle_for v := rfl

/-! Claim C2. -/

/-- C2 counterexample: the claim says a fetch without prior authentication
fails with NotAuthenticated and that a failed fetch is distinguishable
from an empty catalog. In the code get_reservations returns the plain
empty list for a missing session, a network fault, a non 200 status and a
malformed JSON body alike — the same value a genuinely empty catalog
yields, with no typed error anywhere. -/
theorem failed_fetch_equals_empty_catalog :
    get_reservations initApiState (Net.ok ⟨200, [], DataJson.object (some [])⟩) = []
    ∧ get_reservations st_session Net.fault = []
    ∧ get_reservations st_session (Net.ok ⟨500, [], DataJson.malformed⟩) = []
    ∧ get_reservations st_session (Net.ok ⟨200, [], DataJson.malformed⟩) = []
    ∧ get_reservations st_session (Net.ok ⟨200, [], DataJson.object (some [])⟩) = [] :=
  ⟨rfl, rfl, rfl, rfl, rfl⟩

/-- C2 (amended): get_reservations never produces a typed error: every
failure mode — no session object yet, network fault, non 200 status,
malformed JSON, missing data field — returns the empty list,
indistinguishable from an empty catalog; a nonempty result can only come
from a 200 response whose data field holds it while the session exists. -/
theorem get_reservations_empty_or_data (st : ApiState) (resp : Net DataJson) :
    get_reservations st resp = []
    ∨ (st.session = true
        ∧ ∃ ck d, resp = Net.ok ⟨200, ck, DataJson.object (some d)⟩
            ∧ get_reservations st resp = d) := by
  cases hs : st.session
  · left
    simp [get_reservations, hs]
  · cases resp with
    | fault =>
        left
        simp [get_reservations, hs]
    | ok r =>
        by_cases h200 : r.status = 200
        · cases hb : r.body with
          | malformed =>
              left
              simp [get_reservations, hs, h200, hb]
          | object data =>
              cases data with
              | none =>
                  left
                  simp [get_reservations, hs, h200, hb]
              | some d =>
                  right
                  refine ⟨rfl, r.cookies, d, ?_, ?_⟩
                  · cases r with
                    | mk status cookies body =>
                        simp only at h200 hb
                        rw [h200, hb]
                  · simp [get_reservations, hs, h200, hb]
        · left
          simp [get_reservations, hs, h200]

/-! Claim C3. -/

/-- C3 counterexample: the claim says a network fault, an unexpected
response shape and rejected credentials surface as three mutually
distinguishable outcomes. In the code login returns one boolean and all
three scenarios produce the identical value False, so the caller cannot
tell them apart. -/
theorem login_failure_modes_collapse :
    (login initApiState Net.fault Net.fault).1 = false
    ∧ (login initApiState okGet (Net.ok ⟨200, [], SuccessJson.malformed⟩)).1 = false
    ∧ (login initApiState okGet (Net.ok ⟨401, [], SuccessJson.object none⟩)).1 = false
    ∧ (login initApiState okGet
        (Net.ok ⟨200, [], SuccessJson.object (some false)⟩)).1 = false :=
  ⟨rfl, rfl, rfl, rfl⟩

/-- C3 (amended): login reports its outcome as one collapsed boolean: True
exactly when the GET step did not fault and the credential POST came back
with status 200 and parseable JSON whose success field is true; every
failure — network fault at either step, unexpected status, malformed body,
success false or absent — is the same False, with no TransportError,
ProtocolError or invalid credential distinction. -/
theorem login_true_iff (st : ApiState) (g : Net Unit) (p : Net SuccessJson) :
    (login st g p).1 = true
    ↔ ((∃ gr, g = Net.ok gr)
        ∧ ∃ pr, p = Net.ok pr ∧ pr.status = 200
            ∧ pr.body = SuccessJson.object (some true)) := by
  cases g with
  | fault => simp [login]
  | ok gr =>
      cases p with
      | fault => simp [login]
      | ok pr =>
          by_cases h200 : pr.status = 200
          · cases hb : pr.body with
            | malformed => simp [login, h200, hb]
            | object success =>
                cases success with
                | none => simp [login, h200, hb]
                | some b => cases b <;> simp [login, h200, hb]
          · simp [login, h200]

/-! Claim C4. -/

/-- C4 counterexample: the claim says the submission body is an array of
exactly one object carrying the raw payload fields of the item verbatim
plus constant marker fields. In the code the body for an item with id 42
is a single JSON object whose only field is reservation_id — it is not an
array, copies no raw payload field and appends no marker field. -/
theorem reservation_body_not_an_array :
    make_reservation_body "42" = Json.obj [("reservation_id", Json.str "42")]
    ∧ Json.isArr (make_reservation_body "42") = false := ⟨rfl, rfl⟩

/-- C4 (amended): for every item the reservation submission body is the
single JSON object with the lone field reservation_id holding the item id;
it is never an array and nothing else from the item is sent. -/
theorem reservation_body_single_object (rid : String) :
    make_reservation_body rid = Json.obj [("reservation_id", Json.str rid)]
    ∧ Json.isArr (make_reservation_body rid) = false := ⟨rfl, rfl⟩

/-! Claim C5. -/

/-- C5 counterexample: the claim says capturing rating 0 (or 6) is
rejected with ValidationError and leaves the staged review unset. In the
code the rating branch stages the value with no validation: rating 0 is
stored into user_data and the flow moves on to the comment prompt, and
rating 6 is stored just the same. -/
theorem rating_zero_staged_without_validation :
    (rating_branch emptyUserData 0).1.review_rating = some 0
    ∧ (rating_branch emptyUserData 0).2.1 = ConvState.reviewComment
    ∧ (rating_branch emptyUserData 6).1.review_rating = some 6 := ⟨rfl, rfl, rfl⟩

/-- C5 (amended): the handler stages any integer rating unvalidated and
proceeds to the comment prompt; the only range enforcement is the sqlite
CHECK constraint at persist time, where add_review returns False and
leaves the table unchanged for a rating outside 1..5 and appends the row
for a rating inside it. -/
theorem rating_unvalidated_staging (ud : UserData) (k : Int) (db : ReviewDB)
    (bad good : ReviewRow) (hbad : bad.rating < 1 ∨ 5 < bad.rating)
    (hgood1 : 1 ≤ good.rating) (hgood2 : good.rating ≤ 5) :
    (rating_branch ud k).1.review_rating = some k
    ∧ (rating_branch ud k).2.1 = ConvState.reviewComment
    ∧ add_review db bad = (false, db)
    ∧ add_review db good = (true, db ++ [good]) := by
  refine ⟨rfl, rfl, ?_, ?_⟩
  · have hc : ratingCheck bad.rating = false := by
      simp only [ratingCheck, decide_eq_false_iff_not, not_and, not_le]
      omega
    simp [add_review, hc]
  · have hc : ratingCheck good.rating = true := by
      simp only [ratingCheck, decide_eq_true_eq]
      omega
    simp [add_review, hc]

/-- C5 witness: the amended statement applied at rating 3 for staging, the
rating 0 row for the rejected insert and the rating 3 row for the accepted
insert. -/
theorem rating_unvalidated_staging_witness :
    (rating_branch emptyUserData 3).1.review_rating = some 3
    ∧ (rating_branch emptyUserData 3).2.1 = ConvState.reviewComment
    ∧ add_review [] rowRating0 = (false, [])
    ∧ add_review [] rowRating3 = (true, [] ++ [rowRating3]) :=
  rating_unvalidated_staging emptyUserData 3 [] rowRating0 rowRating3
    (Or.inl (by decide)) (by decide) (by decide)

/-! Claim C6. -/

/-- C6: for an item key with no review rows get_food_stats returns the all
zero aggregate and never an error; after one review with rating 4 it
returns average 4.0 with count 1, and after a second with rating 2 it
returns average 3.0 with count 2. -/
theorem get_food_stats_aggregate (db : ReviewDB) (key : String)
    (h : ∀ r ∈ db, r.food_id ≠ key) :
    get_food_stats db key = ⟨0, 0, 0, 0⟩
    ∧ get_food_stats (add_review [] reviewRow4).2 "k1" = ⟨4, 1, 4, 4⟩
    ∧ get_food_stats (add_review (add_review [] reviewRow4).2 reviewRow2).2 "k1"
      = ⟨3, 2, 2, 4⟩ := by
  refine ⟨?_, ?_, ?_⟩
  · have hf : db.filter (fun r => r.food_id == key) = [] := by
      rw [List.filter_eq_nil_iff]
      intro a ha
      simpa using h a ha
    simp [get_food_stats, hf]
  · simp [get_food_stats, add_review, ratingCheck, reviewRow4]
    rw [round1_eq 4 40 (by norm_num) (by norm_num)]
    norm_num
  · simp [get_food_stats, add_review, ratingCheck, reviewRow4, reviewRow2]
    rw [round1_eq (6 / 2) 30 (by norm_num) (by norm_num)]
    norm_num

/-- C6 witness: the aggregate statement applied at the key nokey of an
empty table. -/
theorem get_food_stats_aggregate_witness :
    get_food_stats [] "nokey" = ⟨0, 0, 0, 0⟩
    ∧ get_food_stats (add_review [] reviewRow4).2 "k1" = ⟨4, 1, 4, 4⟩
    ∧ get_food_stats (add_review (add_review [] reviewRow4).2 reviewRow2).2 "k1"
      = ⟨3, 2, 2, 4⟩ :=
  get_food_stats_aggregate [] "nokey" (by simp)

/-! Claim C7. -/

/-- C7 counterexample: the claim says the user receives a failure category
specific message, with connectivity failures phrased differently from slot
unavailable failures. In the code a network fault and a 200 response whose
success field is false produce identical handler output — in particular
the one generic failure text — so no category specific message exists. -/
theorem submit_failure_message_generic :
    confirm_branch st_session udOne 0 Net.fault
      = confirm_branch st_session udOne 0
          (Net.ok ⟨200, [], SuccessJson.object (some false)⟩)
    ∧ (confirm_branch st_session udOne 0 Net.fault).2.2
      = [Action.editText text_processing, Action.apiReserve "42",
         Action.editText text_reservation_failed] := ⟨rfl, rfl⟩

/-- C7 (amended): a submit_reservation failure leaves user_data unchanged
— the cached catalog and the rest of the session survive, and the branch
never touches user_sessions — so the user may retry; but the conversation
ends back at the main menu rather than an item detail state, and the
failure message is the single generic failure text, identical for every
failure category. -/
theorem confirm_failure_preserves_state (st : ApiState) (ud : UserData)
    (idx : Nat) (resp resp2 : Net SuccessJson)
    (hfail : make_reservation st resp = false)
    (hfail2 : make_reservation st resp2 = false) :
    (confirm_branch st ud idx resp).1 = ud
    ∧ (confirm_branch st ud idx resp).2.1 = ConvState.conversationEnd
    ∧ confirm_branch st ud idx resp = confirm_branch st ud idx resp2 := by
  by_cases h : idx < ud.reservations.length
  · simp [confirm_branch, h, hfail, hfail2]
  · simp [confirm_branch, h]

/-- C7 witness: the frame statement applied at the one item catalog with a
network fault and a malformed 500 response as the two failing calls. -/
theorem confirm_failure_preserves_state_witness :
    (confirm_branch st_session udOne 0 Net.fault).1 = udOne
    ∧ (confirm_branch st_session udOne 0 Net.fault).2.1
      = ConvState.conversationEnd
    ∧ confirm_branch st_session udOne 0 Net.fault
      = confirm_branch st_session udOne 0
          (Net.ok ⟨500, [], SuccessJson.malformed⟩) :=
  confirm_failure_preserves_state st_session udOne 0 Net.fault
    (Net.ok ⟨500, [], SuccessJson.malformed⟩) rfl rfl

/-! Claim C8. -/

/-- C8 counterexample: the claim says an out of range selection produces a
user visible message saying the selection is no longer valid. In the code
the out of range branch returns with an empty action list: no message of
any kind is sent. -/
theorem stale_selection_sends_no_message :
    reserve_branch [] udOne 5 = (udOne, ConvState.reservationSelection, []) := rfl

/-- C8 (amended): selecting a catalog index that is out of range for the
cached reservations is a silent no-op: the handler never raises, changes
no state and stays in the selection conversation state, but it sends no
message at all. -/
theorem stale_selection_silent_noop (db : ReviewDB) (ud : UserData)
    (idx : Nat) (h : ud.reservations.length ≤ idx) :
    reserve_branch db ud idx = (ud, ConvState.reservationSelection, []) := by
  have hn : ¬ idx < ud.reservations.length := Nat.not_lt.mpr h
  simp [reserve_branch, hn]

/-- C8 witness: the silent no-op statement applied at index 3 of an empty
catalog. -/
theorem stale_selection_silent_noop_witness :
    reserve_branch [] emptyUserData 3
      = (emptyUserData, ConvState.reservationSelection, []) :=
  stale_selection_silent_noop [] emptyUserData 3 (by decide)

/-! Claim C9. -/

/-- C9: the raw password never reaches stored state — the resulting bot
state is identical for any two password texts under the same transport
outcomes, so no part of it depends on the password; the delete of the
password message is the first action issued, before the login call, on
every path regardless of outcome; and a successful login stores a session
holding only the logged_in flag, the cached username and the login time. -/
theorem password_never_stored_deleted_first (bot : BotState) (ud : UserData)
    (user_id : Int) (t1 t2 : String) (getStep : Net Unit)
    (postStep : Net SuccessJson) (now : Nat) :
    (password_handler bot ud user_id t1 getStep postStep now).1
      = (password_handler bot ud user_id t2 getStep postStep now).1
    ∧ (password_handler bot ud user_id t1 getStep postStep now).2.head?
      = some Action.deleteMessage
    ∧ (password_handler bot ud user_id t1 getStep postStep now).2.get? 2
      = some (Action.apiLogin (ud.username.getD "") (pyStrip t1))
    ∧ ((login bot.api_state getStep postStep).1 = true →
        getSession
          (password_handler bot ud user_id t1 getStep postStep now).1.user_sessions
          user_id = some ⟨true, ud.username.getD "", now⟩) := by
  refine ⟨rfl, rfl, rfl, fun h => ?_⟩
  simp [password_handler, h, getSession_setSession]

/-! Claim C10. -/

/-- C10: a review comment arriving with no staged rating is persisted all
the same with the rating defaulting to 5 — the user is neither rejected
nor re-prompted — and with no staged reservation the record is written
under the empty item key and the unknown name label. -/
theorem review_comment_defaults (db : ReviewDB) (user_id : Int)
    (first_name : Option String) (text : String)
    (hns : pyLower (pyStrip text) ≠ "/skip") (ud : UserData)
    (hr : ud.review_rating = none) (hl : ud.last_reservation = none) :
    (review_comment_handler db ud user_id first_name text).1
      = db ++ [⟨user_id, firstNameOf first_name, "", text_unknown, 5,
          some (pyStrip text)⟩]
    ∧ (review_comment_handler db ud user_id first_name text).2.1
      = ConvState.conversationEnd
    ∧ (review_comment_handler db ud user_id first_name text).2.2
      = [Action.replyText text_review_saved] := by
  simp [review_comment_handler, hns, hr, hl, add_review, ratingCheck]

/-- C10 witness: the defaulting statement applied at comment tasty from a
fresh user_data with nothing staged. -/
theorem review_comment_defaults_witness :
    (review_comment_handler [] emptyUserData 9 none "tasty").1
      = [] ++ [⟨9, firstNameOf none, "", text_unknown, 5,
          some (pyStrip "tasty")⟩]
    ∧ (review_comment_handler [] emptyUserData 9 none "tasty").2.1
      = ConvState.conversationEnd
    ∧ (review_comment_handler [] emptyUserData 9 none "tasty").2.2
      = [Action.replyText text_review_saved] :=
  review_comment_defaults [] 9 none "tasty" (by decide) emptyUserData rfl rfl

end FoodBot
